import Mathlib

/-!
Shallow embedding of the Airbnb price-prediction service (`app.py`).

The service keeps two process-global variables, `model` and `encoder`,
initially `None`.  `POST /reload` downloads a CSV table, cleans it,
replaces the database contents, fits a one-hot encoder and a linear
regression, and returns summary statistics.  `POST /predict` validates a
JSON request and evaluates the fitted model on a single feature row.

Numbers are modelled as `ℚ` (pandas floats; `NaN` is modelled explicitly
where the code tests for it), raw CSV cells as `Option` values (`none`
is pandas `NaN`), and exceptions as `Except`.  External collaborators
(network fetch, CSV parsing, the least-squares solver) enter as
parameters of `reload_data` so that each of their failure modes is a
possible outcome, exactly as an exception would be.
-/

deriving instance DecidableEq for Except

namespace AirbnbApp

/-- A raw row of the downloaded table, restricted to the five selected
columns.  `none` is a pandas `NaN` (null / absent cell).  The raw
`price` column is text; the numeric columns are parsed by `read_csv`. -/
structure RawRow where
  price : Option String
  bedrooms : Option ℚ
  bathrooms : Option ℚ
  accommodates : Option ℚ
  neighbourhood : Option String
deriving DecidableEq

/-- A cleaned listing row as it exists in the pandas frame after
`dropna` and price conversion (all five fields present, price numeric). -/
structure Listing where
  price : ℚ
  bedrooms : ℚ
  bathrooms : ℚ
  accommodates : ℚ
  neighbourhood : String
deriving DecidableEq

/-- A persisted database row (`class Listing(db.Model)`): `bedrooms` and
`accommodates` pass through Python `int()`, which truncates toward zero. -/
structure DBListing where
  price : ℚ
  bedrooms : ℤ
  bathrooms : ℚ
  accommodates : ℤ
  neighbourhood : String
deriving DecidableEq

/-- Python `int()` on a float: truncation toward zero
(`Int.div` is T-division, so `num / den` truncates toward zero). -/
def pyInt (q : ℚ) : ℤ := q.num / (q.den : ℤ)

/-- The `Listing(...)` constructor call inside the `reload` loop. -/
def toDBListing (r : Listing) : DBListing :=
  ⟨r.price, pyInt r.bedrooms, r.bathrooms, pyInt r.accommodates, r.neighbourhood⟩

/-- the price replace-regex step: delete every
dollar sign and comma character from the price text. -/
def stripMoney (s : String) : String :=
  String.mk (s.data.filter (fun c => !(c = '$' || c = ',')))

/-- Numeric value of a list of decimal digit characters. -/
def natOfDigits (cs : List Char) : ℕ :=
  cs.foldl (fun a c => 10 * a + (c.toNat - 48)) 0

/-- Decimal (sign, integer part, optional fractional part) parsing of a
float literal, the fragment of Python `float()` exercised by this
program.  Returns `none` when the text is not such a literal, the case
in which `astype(float)` raises `ValueError`. -/
def parseFloat (s : String) : Option ℚ :=
  let signed : Bool × List Char :=
    match s.data with
    | '-' :: rest => (true, rest)
    | '+' :: rest => (false, rest)
    | cs => (false, cs)
  let neg := signed.1
  let intPart := signed.2.takeWhile Char.isDigit
  let rest := signed.2.dropWhile Char.isDigit
  let signApply : ℚ → ℚ := fun q => if neg then -q else q
  match rest with
  | [] =>
      if intPart.isEmpty then none
      else some (signApply (natOfDigits intPart : ℚ))
  | '.' :: frac =>
      if frac.all Char.isDigit && !(intPart.isEmpty && frac.isEmpty) then
        some (signApply ((natOfDigits intPart : ℚ)
          + (natOfDigits frac : ℚ) / ((10 : ℚ) ^ frac.length)))
      else none
  | _ => none

/-- The fitted `OneHotEncoder` state: `categories_[0]`, the ordered
vocabulary of neighbourhood names. -/
structure Encoder where
  vocab : List String
deriving DecidableEq

/-- `np.unique` as used by `OneHotEncoder.fit`: the distinct values of
the column, in ascending (lexicographic) order. -/
def fitVocab (l : List String) : List String :=
  List.insertionSort (· ≤ ·) l.dedup

/-- The one-hot row for category `c` over vocabulary `vocab`: one column
per vocabulary entry, `1` at the entry equal to `c`, `0` elsewhere. -/
def oneHot (vocab : List String) (c : String) : List ℚ :=
  vocab.map (fun v => if v = c then (1 : ℚ) else 0)

/-- `encoder.transform([[c]])` with the default `handle_unknown=error`:
raises `ValueError` on a category outside the fitted vocabulary,
otherwise returns the one-hot row. -/
def Encoder.transform (e : Encoder) (c : String) : Except String (List ℚ) :=
  if c ∈ e.vocab then .ok (oneHot e.vocab c)
  else .error "Found unknown categories"

/-- Presence of all five selected cells in a raw row. -/
def hasAllFields (r : RawRow) : Bool :=
  r.price.isSome && r.bedrooms.isSome && r.bathrooms.isSome
    && r.accommodates.isSome && r.neighbourhood.isSome

/-- `listings[[...five columns...]].dropna()`: keep exactly the rows in
which all five selected cells are present. -/
def dropna (rows : List RawRow) : List RawRow :=
  rows.filter hasAllFields

/-- Conversion of one row after `dropna`: every field is present, and
the stripped price text must parse as a float. -/
def convertRow (r : RawRow) : Except String Listing :=
  match r.price, r.bedrooms, r.bathrooms, r.accommodates, r.neighbourhood with
  | some p, some bd, some ba, some ac, some nb =>
      match parseFloat (stripMoney p) with
      | some q => .ok ⟨q, bd, ba, ac, nb⟩
      | none => .error "could not convert string to float"
  | _, _, _, _, _ => .error "missing value"

/-- The price conversion of the reload step
(strip money characters, then `astype(float)` over the whole column):
`astype` raises `ValueError` at the first cell whose text does not
parse, so the conversion of the column is all-or-nothing — one bad cell
fails the whole reload, it does not drop that row. -/
def astypePrices : List RawRow → Except String (List Listing)
  | [] => .ok []
  | r :: rs =>
      match convertRow r with
      | .error msg => .error msg
      | .ok l =>
          match astypePrices rs with
          | .error msg => .error msg
          | .ok ls => .ok (l :: ls)

/-- One labelled row of the frame produced inside `preprocess_data`
after the one-hot block is concatenated and `neighbourhood_cleansed` is
dropped: the original numeric columns in their original order, followed
by one column per vocabulary entry, named by
`get_feature_names_out` and ordered by the vocabulary. -/
def dfRow (vocab : List String) (r : Listing) : List (String × ℚ) :=
  [("price", r.price), ("bedrooms", r.bedrooms),
   ("bathrooms", r.bathrooms), ("accommodates", r.accommodates)]
  ++ vocab.map (fun cat =>
      ("neighbourhood_cleansed_" ++ cat, if cat = r.neighbourhood then (1 : ℚ) else 0))

/-- `preprocess_data(df)` on the already-cleaned listings that `reload`
passes to it.  The input has no missing values, so the median / mode
imputation passes are identities — except that `mode()[0]` raises
`IndexError` on an empty frame, which makes the whole call fail there.
Returns the processed frame (as labelled rows) and the fitted encoder.
(`pd.concat` row-index alignment is modelled as aligned; the claims
below concern column layout, state, and statistics computed earlier.) -/
def preprocess_data (ls : List Listing) :
    Except String (List (List (String × ℚ)) × Encoder) :=
  match ls with
  | [] => .error "IndexError: mode of empty frame"
  | _ =>
      let enc : Encoder := ⟨fitVocab (ls.map (·.neighbourhood))⟩
      .ok (ls.map (dfRow enc.vocab), enc)

/-- `df.drop(columns=price)`: remove the price column from each row and
keep the remaining values — the training matrix `X`. -/
def dropPriceColumn (df : List (List (String × ℚ))) : List (List ℚ) :=
  df.map (fun row => (row.filter (fun p => p.1 != "price")).map Prod.snd)

/-- The values of one training-matrix row for listing `r`: the columns
of `dfRow` with the price column dropped. -/
def xRowValues (vocab : List String) (r : Listing) : List ℚ :=
  ((dfRow vocab r).filter (fun p => p.1 != "price")).map Prod.snd

/-- `df[price]`: the target vector `y`. -/
def priceColumn (df : List (List (String × ℚ))) : List ℚ :=
  df.map (fun row => (((row.filter (fun p => p.1 == "price")).map Prod.snd).headD 0))

/-- The state of the `model` global: `LinearRegression()` before `fit`
(calling `predict` on it raises `NotFittedError`), or a fitted model
with its coefficient vector and intercept. -/
inductive MState where
  | fresh
  | fitted (coef : List ℚ) (intercept : ℚ)
deriving DecidableEq

/-- `model.predict` on one row: raises before `fit`; raises on a shape
mismatch; otherwise intercept plus dot product of coefficients and row. -/
def MState.predictRow (m : MState) (x : List ℚ) : Except String ℚ :=
  match m with
  | .fresh => .error "NotFittedError"
  | .fitted coef intercept =>
      if x.length = coef.length then
        .ok (intercept + ((coef.zip x).map (fun p => p.1 * p.2)).foldr (· + ·) 0)
      else .error "shape mismatch"

/-- The process-wide mutable state: the `model` and `encoder` globals
(both initially `None`) and the committed rows of the listings table. -/
structure ServerState where
  model : Option MState
  encoder : Option Encoder
  dbListings : List DBListing
deriving DecidableEq

/-- Sum of a list of rationals (a pandas column sum). -/
def qsum (l : List ℚ) : ℚ := l.foldr (· + ·) 0

/-- Minimum of a column (value on the empty column is irrelevant here:
it is only read on nonempty data). -/
def qmin : List ℚ → ℚ
  | [] => 0
  | [x] => x
  | x :: y :: xs => min x (qmin (y :: xs))

/-- Maximum of a column. -/
def qmax : List ℚ → ℚ
  | [] => 0
  | [x] => x
  | x :: y :: xs => max x (qmax (y :: xs))

/-- Mean of a column: sum divided by length. -/
def qmean (l : List ℚ) : ℚ := qsum l / (l.length : ℚ)

/-- `value_counts().head().to_dict()`: the distinct neighbourhood names
with their multiplicities, sorted by decreasing count, first five kept. -/
def topNeighbourhoods (l : List String) : List (String × ℕ) :=
  (List.insertionSort (fun a b : String × ℕ => b.2 ≤ a.2)
    (l.dedup.map (fun s => (s, l.count s)))).take 5

/-- The JSON object returned by a successful reload. -/
structure Summary where
  total_listings : ℕ
  average_price : ℚ
  min_price : ℚ
  max_price : ℚ
  average_bedrooms : ℚ
  average_bathrooms : ℚ
  top_neighbourhoods : List (String × ℕ)
deriving DecidableEq

/-- Step 6 of `reload_data`: summary statistics over the cleaned rows. -/
def mkSummary (ls : List Listing) : Summary where
  total_listings := ls.length
  average_price := qmean (ls.map (·.price))
  min_price := qmin (ls.map (·.price))
  max_price := qmax (ls.map (·.price))
  average_bedrooms := qmean (ls.map (·.bedrooms))
  average_bathrooms := qmean (ls.map (·.bathrooms))
  top_neighbourhoods := topNeighbourhoods (ls.map (·.neighbourhood))

/-- `POST /reload`.  `fetch` is the combined outcome of the network
download, decompression and `read_csv` (all of which precede any state
change); `fitO` is the least-squares solver `LinearRegression.fit`,
which may raise on degenerate input.  The result pairs the state after
the call with the response (a summary, or the propagated exception).

State updates happen exactly where the Python statements put them:
the table rows are replaced at `db.session.commit()` (an exception
before the commit rolls the session back); the `encoder` global is
assigned when `preprocess_data` returns; the `model` global is assigned
the fresh `LinearRegression()` before `fit` runs, and `fit` mutates
that object in place. -/
def reload_data (s : ServerState) (fetch : Except Unit (List RawRow))
    (fitO : List (List ℚ) → List ℚ → Except Unit (List ℚ × ℚ)) :
    ServerState × Except String Summary :=
  match fetch with
  | .error _ => (s, .error "FetchError")
  | .ok rows =>
      match astypePrices (dropna rows) with
      | .error msg => (s, .error msg)
      | .ok listings =>
          let s1 : ServerState := { s with dbListings := listings.map toDBListing }
          match preprocess_data listings with
          | .error msg => (s1, .error msg)
          | .ok (df, enc) =>
              let X := dropPriceColumn df
              let y := priceColumn df
              let s2 : ServerState := { s1 with encoder := some enc, model := some .fresh }
              match fitO X y with
              | .error _ => (s2, .error "TrainingFailed")
              | .ok wb =>
                  ({ s2 with model := some (.fitted wb.1 wb.2) },
                   .ok (mkSummary listings))

/-- A JSON value as it can appear in a predict request field. -/
inductive JsonVal where
  | num (q : ℚ)
  | str (s : String)
  | null
deriving DecidableEq

/-- The parsed body of a predict request; `none` is an absent key
(`data.get` returns `None`). -/
structure PredictRequest where
  bedrooms : Option JsonVal
  bathrooms : Option JsonVal
  accommodates : Option JsonVal
  neighbourhood_cleansed : Option String
deriving DecidableEq

/-- Result of `pd.to_numeric(x, errors=coerce)` on a scalar: a number,
or `NaN` for anything unparseable — including `None`, so an absent
field coerces to `NaN`, never to `None`. -/
inductive PyNum where
  | nan
  | val (q : ℚ)
deriving DecidableEq

/-- `pd.to_numeric(data.get(k), errors=coerce)`. -/
def to_numeric : Option JsonVal → PyNum
  | none => .nan
  | some .null => .nan
  | some (.num q) => .val q
  | some (.str t) =>
      match parseFloat t with
      | some q => .val q
      | none => .nan

/-- An HTTP response of the predict endpoint. -/
inductive PredictResponse where
  | ok (predicted_price : ℚ)
  | badRequest (error : String)
  | serverError (error : String)
deriving DecidableEq

/-- The hardcoded allowlist at the top of `predict`. -/
def valid_neighborhoods : List String :=
  ["East Boston", "Roxbury", "Beacon Hill", "Back Bay", "North End", "Dorchester",
   "Charlestown", "Jamaica Plain", "Downtown", "South Boston", "Bay Village",
   "Brighton", "West Roxbury", "Roslindale", "South End", "Mission Hill",
   "Fenway", "Allston", "Hyde Park", "West End", "Mattapan", "Leather District",
   "South Boston Waterfront", "Chinatown", "Longwood Medical Area"]

def dataNotLoadedMsg : String :=
  "The data has not been loaded. Please refresh the data by calling the \x27/reload\x27 endpoint first."

def missingParamsMsg : String := "Missing or invalid required parameters"

def invalidNumericMsg : String :=
  "Invalid numeric values for bedrooms, bathrooms, or accommodates"

def invalidNeighborhoodMsg : String :=
  "Invalid neighborhood. Please choose one of the following: "
    ++ String.intercalate ", " valid_neighborhoods

/-- The numeric value carried by a non-`NaN` `PyNum`. -/
def PyNum.value : PyNum → ℚ
  | .nan => 0
  | .val q => q

/-- The single feature row assembled in `predict`:
`np.concatenate(([bedrooms, bathrooms, accommodates], one_hot_row))`. -/
def predictInput (b ba ac : ℚ) (oh : List ℚ) : List ℚ := [b, ba, ac] ++ oh

/-- `POST /predict`.  Returns the response together with the state after
the call (the handler never assigns the globals or touches the table).

The first guard is the `model is None or encoder is None` check.  The
`None in [bedrooms, bathrooms, accommodates, neighbourhood]` test can
only fire on the neighbourhood: the three numeric locals are values of
`to_numeric(..., errors=coerce)` and are therefore `NaN` rather than
`None` when absent.  Then come the allowlist check, the `isna` check,
and the encode / predict steps whose exceptions the surrounding
`try/except` turns into a 500 response. -/
def predict (s : ServerState) (req : PredictRequest) : PredictResponse × ServerState :=
  match s.model, s.encoder with
  | some m, some e =>
      let bedrooms := to_numeric req.bedrooms
      let bathrooms := to_numeric req.bathrooms
      let accommodates := to_numeric req.accommodates
      match req.neighbourhood_cleansed with
      | none => (.badRequest missingParamsMsg, s)
      | some nb =>
          if nb ∉ valid_neighborhoods then
            (.badRequest invalidNeighborhoodMsg, s)
          else if bedrooms = .nan ∨ bathrooms = .nan ∨ accommodates = .nan then
            (.badRequest invalidNumericMsg, s)
          else
            match e.transform nb with
            | .error msg => (.serverError msg, s)
            | .ok oh =>
                match m.predictRow
                    (predictInput bedrooms.value bathrooms.value accommodates.value oh) with
                | .error msg => (.serverError msg, s)
                | .ok price => (.ok price, s)
  | _, _ => (.badRequest dataNotLoadedMsg, s)

/-! ### Helper lemmas -/

theorem oneHot_length (vocab : List String) (c : String) :
    (oneHot vocab c).length = vocab.length := by
  simp [oneHot]

theorem neighbourhood_col_ne_price (c : String) :
    ("neighbourhood_cleansed_" ++ c) ≠ "price" := by
  intro h
  have hlen := congrArg String.length h
  simp only [String.length_append] at hlen
  have h23 : ("neighbourhood_cleansed_" : String).length = 23 := rfl
  have h5 : ("price" : String).length = 5 := rfl
  rw [h23, h5] at hlen
  omega

theorem snd_filter_oneHot_cols (nb : String) (vocab : List String) :
    ((vocab.map (fun cat =>
        ("neighbourhood_cleansed_" ++ cat,
          if cat = nb then (1 : ℚ) else 0))).filter
      (fun p => p.1 != "price")).map Prod.snd = oneHot vocab nb := by
  induction vocab with
  | nil => rfl
  | cons c cs ih =>
      have hc : (("neighbourhood_cleansed_" ++ c) != "price") = true := by
        simpa using neighbourhood_col_ne_price c
      simp only [List.map_cons, List.filter_cons, hc, if_true, oneHot] at *
      simp [ih]

theorem xRowValues_eq (vocab : List String) (r : Listing) :
    xRowValues vocab r
      = [r.bedrooms, r.bathrooms, r.accommodates] ++ oneHot vocab r.neighbourhood := by
  unfold xRowValues dfRow
  rw [List.filter_append, List.map_append]
  congr 1
  exact snd_filter_oneHot_cols r.neighbourhood vocab

theorem xRowValues_length (vocab : List String) (r : Listing) :
    (xRowValues vocab r).length = 3 + vocab.length := by
  rw [xRowValues_eq]
  simp [oneHot]
  omega

theorem qsum_cons (x : ℚ) (l : List ℚ) : qsum (x :: l) = x + qsum l := rfl

theorem qmin_mul_le_qsum (l : List ℚ) : qmin l * (l.length : ℚ) ≤ qsum l := by
  induction l with
  | nil => simp [qmin, qsum]
  | cons x xs ih =>
      cases xs with
      | nil => simp [qmin, qsum]
      | cons y ys =>
          have hmin : qmin (x :: y :: ys) = min x (qmin (y :: ys)) := rfl
          have hsum : qsum (x :: y :: ys) = x + qsum (y :: ys) := rfl
          have hlen : ((x :: y :: ys).length : ℚ) = ((y :: ys).length : ℚ) + 1 := by
            push_cast [List.length_cons]
            ring
          have h1 : min x (qmin (y :: ys)) ≤ x := min_le_left _ _
          have h2 : min x (qmin (y :: ys)) * (((y :: ys).length : ℕ) : ℚ)
              ≤ qmin (y :: ys) * (((y :: ys).length : ℕ) : ℚ) :=
            mul_le_mul_of_nonneg_right (min_le_right _ _) (by positivity)
          have hexp : min x (qmin (y :: ys)) * ((((y :: ys).length : ℕ) : ℚ) + 1)
              = min x (qmin (y :: ys)) * (((y :: ys).length : ℕ) : ℚ)
                + min x (qmin (y :: ys)) := by ring
          rw [hmin, hsum, hlen, hexp]
          linarith

theorem qsum_le_qmax_mul (l : List ℚ) : qsum l ≤ qmax l * (l.length : ℚ) := by
  induction l with
  | nil => simp [qmax, qsum]
  | cons x xs ih =>
      cases xs with
      | nil => simp [qmax, qsum]
      | cons y ys =>
          have hmax : qmax (x :: y :: ys) = max x (qmax (y :: ys)) := rfl
          have hsum : qsum (x :: y :: ys) = x + qsum (y :: ys) := rfl
          have hlen : ((x :: y :: ys).length : ℚ) = ((y :: ys).length : ℚ) + 1 := by
            push_cast [List.length_cons]
            ring
          have h1 : x ≤ max x (qmax (y :: ys)) := le_max_left _ _
          have h2 : qmax (y :: ys) * (((y :: ys).length : ℕ) : ℚ)
              ≤ max x (qmax (y :: ys)) * (((y :: ys).length : ℕ) : ℚ) :=
            mul_le_mul_of_nonneg_right (le_max_right _ _) (by positivity)
          have hexp : max x (qmax (y :: ys)) * ((((y :: ys).length : ℕ) : ℚ) + 1)
              = max x (qmax (y :: ys)) * (((y :: ys).length : ℕ) : ℚ)
                + max x (qmax (y :: ys)) := by ring
          rw [hmax, hsum, hlen, hexp]
          linarith

theorem qmin_le_qmean (l : List ℚ) (h : l ≠ []) : qmin l ≤ qmean l := by
  have hpos : (0 : ℚ) < (l.length : ℚ) := by
    have : 0 < l.length := List.length_pos.mpr h
    exact_mod_cast this
  rw [qmean, le_div_iff₀ hpos]
  exact qmin_mul_le_qsum l

theorem qmean_le_qmax (l : List ℚ) (h : l ≠ []) : qmean l ≤ qmax l := by
  have hpos : (0 : ℚ) < (l.length : ℚ) := by
    have : 0 < l.length := List.length_pos.mpr h
    exact_mod_cast this
  rw [qmean, div_le_iff₀ hpos]
  exact qsum_le_qmax_mul l

/-! ### Claims -/

/-- Counterexample to claim C2: a reload that fails in `model.fit`
(after a successful fetch, clean and preprocess) does NOT leave the
previously held `(model, encoder)` pair unchanged.  Starting from a
Ready state, the failed reload ends with a replaced encoder and a
replaced — fresh, unfitted — model. -/
theorem c2_reload_fit_failure_counterexample :
    (reload_data ⟨some (.fitted [5] 1), some ⟨["OldTown"]⟩, []⟩
        (.ok [⟨some "100", some 2, some 1, some 4, some "NewTown"⟩])
        (fun _ _ => .error ())).2 = .error "TrainingFailed"
    ∧ (reload_data ⟨some (.fitted [5] 1), some ⟨["OldTown"]⟩, []⟩
        (.ok [⟨some "100", some 2, some 1, some 4, some "NewTown"⟩])
        (fun _ _ => .error ())).1.model ≠ some (.fitted [5] 1)
    ∧ (reload_data ⟨some (.fitted [5] 1), some ⟨["OldTown"]⟩, []⟩
        (.ok [⟨some "100", some 2, some 1, some 4, some "NewTown"⟩])
        (fun _ _ => .error ())).1.encoder ≠ some ⟨["OldTown"]⟩ := by
  refine ⟨by decide, by decide, by decide⟩

/-- Claim C2 as amended: a reload failure in fetch/parse or in the price
conversion leaves the whole state unchanged; a failure in
`preprocess_data` leaves `model` and `encoder` unchanged but has already
replaced the database contents; a failure in `model.fit` leaves the
globals replaced — the new encoder paired with a fresh unfitted model —
so only pre-training failures preserve the prior Ready pair. -/
theorem c2_reload_failure_state_characterization (s : ServerState)
    (fetch : Except Unit (List RawRow))
    (fitO : List (List ℚ) → List ℚ → Except Unit (List ℚ × ℚ)) :
    (fetch = .error () → (reload_data s fetch fitO).1 = s)
    ∧ (∀ rows msg, fetch = .ok rows → astypePrices (dropna rows) = .error msg →
        (reload_data s fetch fitO).1 = s)
    ∧ (∀ rows listings msg, fetch = .ok rows →
        astypePrices (dropna rows) = .ok listings →
        preprocess_data listings = .error msg →
        (reload_data s fetch fitO).1.model = s.model
        ∧ (reload_data s fetch fitO).1.encoder = s.encoder
        ∧ (reload_data s fetch fitO).1.dbListings = listings.map toDBListing)
    ∧ (∀ rows listings df enc, fetch = .ok rows →
        astypePrices (dropna rows) = .ok listings →
        preprocess_data listings = .ok (df, enc) →
        fitO (dropPriceColumn df) (priceColumn df) = .error () →
        (reload_data s fetch fitO).1
          = ⟨some .fresh, some enc, listings.map toDBListing⟩) := by
  refine ⟨?_, ?_, ?_, ?_⟩
  · intro hf
    subst hf
    rfl
  · intro rows msg hf hc
    subst hf
    simp [reload_data, hc]
  · intro rows listings msg hf hc hp
    subst hf
    simp [reload_data, hc, hp]
  · intro rows listings df enc hf hc hp hfit
    subst hf
    simp [reload_data, hc, hp, hfit]

/-- Witness for the amended C2, exercising the fit-failure clause on a
concrete Ready state: the resulting state is the torn one. -/
theorem c2_reload_failure_state_characterization_witness :
    (reload_data ⟨some (.fitted [5] 1), some ⟨["OldTown"]⟩, []⟩
        (.ok [⟨some "100", some 2, some 1, some 4, some "NewTown"⟩])
        (fun _ _ => .error ())).1
      = ⟨some .fresh, some ⟨["NewTown"]⟩,
          [⟨100, 2, 1, 4, "NewTown"⟩]⟩ :=
  (c2_reload_failure_state_characterization
      ⟨some (.fitted [5] 1), some ⟨["OldTown"]⟩, []⟩
      (.ok [⟨some "100", some 2, some 1, some 4, some "NewTown"⟩])
      (fun _ _ => .error ())).2.2.2
    [⟨some "100", some 2, some 1, some 4, some "NewTown"⟩]
    [⟨100, 2, 1, 4, "NewTown"⟩]
    [dfRow ["NewTown"] ⟨100, 2, 1, 4, "NewTown"⟩]
    ⟨["NewTown"]⟩ rfl (by decide) (by decide) rfl

/-- Claim C3: for a record whose neighbourhood is outside the fitted
vocabulary, the single-row transform of the pipeline itself (the
`encoder.transform` call of `predict`) fails with the unknown-category
error and never returns any row — in particular never an all-zero
one-hot block; and whenever the transform does return a row, that row
contains a `1`.  This holds for every encoder, independently of the API
allowlist. -/
theorem c3_transform_unknown_category_fails (e : Encoder) (c : String)
    (h : c ∉ e.vocab) :
    e.transform c = .error "Found unknown categories"
    ∧ (∀ ys : List ℚ, e.transform c ≠ .ok ys)
    ∧ (∀ c2 ys, e.transform c2 = .ok ys → (1 : ℚ) ∈ ys) := by
  refine ⟨?_, ?_, ?_⟩
  · simp [Encoder.transform, h]
  · intro ys hys
    simp [Encoder.transform, h] at hys
  · intro c2 ys hys
    unfold Encoder.transform at hys
    split at hys
    · rename_i hmem
      obtain rfl : oneHot e.vocab c2 = ys := by
        simpa using hys
      exact List.mem_map.mpr ⟨c2, hmem, by simp⟩
    · simp at hys

/-- Witness for C3: the category "South Boston" is in the hardcoded API
allowlist but outside this fitted vocabulary, and the transform fails. -/
theorem c3_transform_unknown_category_fails_witness :
    Encoder.transform ⟨["Allston"]⟩ "South Boston" = .error "Found unknown categories"
    ∧ (∀ ys : List ℚ, Encoder.transform ⟨["Allston"]⟩ "South Boston" ≠ .ok ys)
    ∧ (∀ c2 ys, Encoder.transform ⟨["Allston"]⟩ c2 = .ok ys → (1 : ℚ) ∈ ys) :=
  c3_transform_unknown_category_fails ⟨["Allston"]⟩ "South Boston" (by decide)

/-- Claim C7: while `model` or `encoder` is still `None` (no successful
reload has completed), every predict call returns the 400
data-not-loaded error, whatever the request body contains. -/
theorem c7_predict_model_not_loaded (s : ServerState) (req : PredictRequest)
    (h : s.model = none ∨ s.encoder = none) :
    (predict s req).1 = .badRequest dataNotLoadedMsg := by
  obtain ⟨m, e, db⟩ := s
  rcases h with h | h
  · simp only at h
    subst h
    cases e <;> rfl
  · simp only at h
    subst h
    cases m <;> rfl

/-- Witness for C7: predict on the initial state. -/
theorem c7_predict_model_not_loaded_witness :
    (predict ⟨none, none, []⟩
      ⟨some (.num 2), some (.num 1), some (.num 4), some "South Boston"⟩).1
      = .badRequest dataNotLoadedMsg :=
  c7_predict_model_not_loaded _ _ (Or.inl rfl)

/-- On a row with all five fields present, `convertRow` either succeeds
or fails with the float-conversion error. -/
theorem convertRow_ok_or_conv_error (r : RawRow) (h : hasAllFields r = true) :
    (∃ l, convertRow r = .ok l)
    ∨ convertRow r = .error "could not convert string to float" := by
  obtain ⟨rp, rbd, rba, rac, rnb⟩ := r
  unfold hasAllFields at h
  simp only [Bool.and_eq_true, Option.isSome_iff_exists] at h
  obtain ⟨⟨⟨⟨⟨p, hp⟩, bd, hbd⟩, ba, hba⟩, ac, hac⟩, nb, hnb⟩ := h
  subst hp
  subst hbd
  subst hba
  subst hac
  subst hnb
  cases hpar : parseFloat (stripMoney p) with
  | none => exact Or.inr (by simp [convertRow, hpar])
  | some q => exact Or.inl ⟨⟨q, bd, ba, ac, nb⟩, by simp [convertRow, hpar]⟩

/-- On a row with all five fields present whose stripped price text does
not parse, `convertRow` fails with the float-conversion error. -/
theorem convertRow_conv_error (r : RawRow) (h : hasAllFields r = true)
    (p : String) (hp : r.price = some p)
    (hbad : parseFloat (stripMoney p) = none) :
    convertRow r = .error "could not convert string to float" := by
  obtain ⟨rp, rbd, rba, rac, rnb⟩ := r
  simp only at hp
  subst hp
  unfold hasAllFields at h
  simp only [Bool.and_eq_true, Option.isSome_iff_exists] at h
  obtain ⟨⟨⟨⟨⟨p2, hp2⟩, bd, hbd⟩, ba, hba⟩, ac, hac⟩, nb, hnb⟩ := h
  subst hbd
  subst hba
  subst hac
  subst hnb
  simp [convertRow, hbad]

/-- If every row of the column has its fields and one of them has
unparseable price text, the whole `astype` conversion fails. -/
theorem astypePrices_error_of_badrow :
    ∀ (l : List RawRow), (∀ r ∈ l, hasAllFields r = true) →
    (∃ r ∈ l, ∃ p, r.price = some p ∧ parseFloat (stripMoney p) = none) →
    astypePrices l = .error "could not convert string to float" := by
  intro l
  induction l with
  | nil =>
      rintro - ⟨r, hr, -⟩
      exact absurd hr (List.not_mem_nil r)
  | cons r rs ih =>
      rintro hfields ⟨r2, hr2, p, hp, hbad⟩
      rcases List.mem_cons.mp hr2 with rfl | htail
      · have herr := convertRow_conv_error r2 (hfields r2 (List.mem_cons_self _ _)) p hp hbad
        simp [astypePrices, herr]
      · rcases convertRow_ok_or_conv_error r (hfields r (List.mem_cons_self _ _)) with
          ⟨l0, hok⟩ | herr
        · have hrec := ih (fun x hx => hfields x (List.mem_cons_of_mem r hx))
            ⟨r2, htail, p, hp, hbad⟩
          simp [astypePrices, hok, hrec]
        · simp [astypePrices, herr]

/-- A successful `astype` conversion is row-for-row. -/
theorem astypePrices_ok_length :
    ∀ (l : List RawRow) (ls : List Listing),
      astypePrices l = .ok ls → ls.length = l.length := by
  intro l
  induction l with
  | nil =>
      intro ls h
      obtain rfl : ([] : List Listing) = ls := by simpa [astypePrices] using h
      rfl
  | cons r rs ih =>
      intro ls h
      cases hconv : convertRow r with
      | error msg =>
          simp only [astypePrices, hconv] at h
          exact absurd h (by simp)
      | ok l0 =>
          cases hrec : astypePrices rs with
          | error msg =>
              simp only [astypePrices, hconv, hrec] at h
              exact absurd h (by simp)
          | ok ls2 =>
              simp only [astypePrices, hconv, hrec] at h
              obtain rfl : l0 :: ls2 = ls := by simpa using h
              simp [ih ls2 hrec]

/-- Counterexample to claim C4: a row whose price text does not parse
after stripping dollar signs and commas is NOT dropped — the whole
ingestion aborts with the conversion error, even though a second,
perfectly clean row is present that the claim says should survive. -/
theorem c4_unparseable_price_aborts_counterexample :
    (reload_data ⟨none, none, []⟩
        (.ok [⟨some "abc", some 2, some 1, some 4, some "Allston"⟩,
              ⟨some "$100", some 3, some 2, some 5, some "Allston"⟩])
        (fun _ _ => .ok ([], 0))).2
      = .error "could not convert string to float"
    ∧ ∀ summ, (reload_data ⟨none, none, []⟩
        (.ok [⟨some "abc", some 2, some 1, some 4, some "Allston"⟩,
              ⟨some "$100", some 3, some 2, some 5, some "Allston"⟩])
        (fun _ _ => .ok ([], 0))).2 ≠ .ok summ := by
  have h1 : (reload_data ⟨none, none, []⟩
      (.ok [⟨some "abc", some 2, some 1, some 4, some "Allston"⟩,
            ⟨some "$100", some 3, some 2, some 5, some "Allston"⟩])
      (fun _ _ => .ok ([], 0))).2
      = .error "could not convert string to float" := by decide
  refine ⟨h1, fun summ h => ?_⟩
  rw [h1] at h
  exact Except.noConfusion h

/-- Claim C4 as amended: at ingestion, rows with a null/absent field are
dropped (membership in the kept rows is exactly membership plus field
presence); a successful price conversion keeps every kept row; but if
any kept row has price text that fails to parse after stripping dollar
signs and commas, the whole ingestion aborts with an error instead of
dropping that row. -/
theorem c4_price_cleaning_amended (rows : List RawRow) :
    (∀ r, r ∈ dropna rows ↔ r ∈ rows ∧ hasAllFields r)
    ∧ (∀ ls, astypePrices (dropna rows) = .ok ls → ls.length = (dropna rows).length)
    ∧ ((∃ r ∈ dropna rows, ∃ p, r.price = some p ∧ parseFloat (stripMoney p) = none) →
        astypePrices (dropna rows) = .error "could not convert string to float") := by
  refine ⟨?_, ?_, ?_⟩
  · intro r
    simp [dropna, List.mem_filter]
  · exact astypePrices_ok_length (dropna rows)
  · intro hex
    refine astypePrices_error_of_badrow (dropna rows) ?_ hex
    intro r hr
    exact (List.mem_filter.mp hr).2

/-- Witness for the amended C4, exercising the abort clause: one clean
row, one row with unparseable price text. -/
theorem c4_price_cleaning_amended_witness :
    astypePrices (dropna
        [⟨some "abc", some 2, some 1, some 4, some "Allston"⟩,
         ⟨some "$100", some 3, some 2, some 5, some "Allston"⟩])
      = .error "could not convert string to float" :=
  (c4_price_cleaning_amended
      [⟨some "abc", some 2, some 1, some 4, some "Allston"⟩,
       ⟨some "$100", some 3, some 2, some 5, some "Allston"⟩]).2.2
    ⟨⟨some "abc", some 2, some 1, some 4, some "Allston"⟩, by decide, "abc",
      rfl, by decide⟩

/-- Claim C9: the fitted vocabulary is the lexicographically sorted list
of the distinct neighbourhood values of the training batch, so fitting
over any row-permutation of the same data yields the identical
vocabulary (hence the identical feature-column layout). -/
theorem c9_vocab_sorted_distinct_perm_invariant (l l2 : List String)
    (h : l.Perm l2) :
    (fitVocab l).Sorted (· ≤ ·)
    ∧ (fitVocab l).Nodup
    ∧ (∀ c, c ∈ fitVocab l ↔ c ∈ l)
    ∧ fitVocab l = fitVocab l2 := by
  refine ⟨List.sorted_insertionSort _ _, ?_, ?_, ?_⟩
  · exact ((List.perm_insertionSort _ _).nodup_iff).mpr (List.nodup_dedup l)
  · intro c
    rw [fitVocab, List.mem_insertionSort, List.mem_dedup]
  · exact List.eq_of_perm_of_sorted
      ((List.perm_insertionSort _ _).trans
        ((h.dedup).trans (List.perm_insertionSort _ _).symm))
      (List.sorted_insertionSort _ _) (List.sorted_insertionSort _ _)

/-- Witness for C9, at a two-element swap. -/
theorem c9_vocab_sorted_distinct_perm_invariant_witness :
    (fitVocab ["Back Bay", "Allston"]).Sorted (· ≤ ·)
    ∧ (fitVocab ["Back Bay", "Allston"]).Nodup
    ∧ (∀ c, c ∈ fitVocab ["Back Bay", "Allston"] ↔ c ∈ ["Back Bay", "Allston"])
    ∧ fitVocab ["Back Bay", "Allston"] = fitVocab ["Allston", "Back Bay"] :=
  c9_vocab_sorted_distinct_perm_invariant _ _ (List.Perm.swap "Allston" "Back Bay" [])

/-- Claim C10: a predict call never changes the service state — the
`model` and `encoder` globals and the stored listings after the call
are exactly those before it, on every response path. -/
theorem c10_predict_preserves_state (s : ServerState) (req : PredictRequest) :
    (predict s req).2 = s := by
  obtain ⟨m, e, db⟩ := s
  cases m with
  | none => cases e <;> rfl
  | some m =>
      cases e with
      | none => rfl
      | some e =>
          unfold predict
          cases hnb : req.neighbourhood_cleansed with
          | none => rfl
          | some nb =>
              simp only
              split
              · rfl
              · split
                · rfl
                · split
                  · rfl
                  · split <;> rfl

/-- Claim C1: after a reload whose `preprocess_data` produced the frame
`df` and the encoder `enc`, the single row assembled in `predict` is the
concatenation `[bedrooms, bathrooms, accommodates] ++ one-hot` in
exactly the column order of the training matrix: it equals the
training-row builder applied to a listing with those fields, its width
is `3 + |vocabulary|`, and that is the width of every row of the
training matrix `X = df.drop(columns=price)`. -/
theorem c1_feature_row_width_and_order (ls : List Listing)
    (df : List (List (String × ℚ))) (enc : Encoder)
    (hpre : preprocess_data ls = .ok (df, enc))
    (b ba ac p : ℚ) (c : String) (oh : List ℚ)
    (htr : enc.transform c = .ok oh) :
    predictInput b ba ac oh = xRowValues enc.vocab ⟨p, b, ba, ac, c⟩
    ∧ (predictInput b ba ac oh).length = 3 + enc.vocab.length
    ∧ ∀ xr ∈ dropPriceColumn df, xr.length = (predictInput b ba ac oh).length := by
  unfold Encoder.transform at htr
  split at htr
  case isFalse => simp at htr
  case isTrue hmem =>
  obtain rfl : oneHot enc.vocab c = oh := by simpa using htr
  have hrow : predictInput b ba ac (oneHot enc.vocab c)
      = xRowValues enc.vocab ⟨p, b, ba, ac, c⟩ := by
    rw [xRowValues_eq]
    rfl
  have hlen : (predictInput b ba ac (oneHot enc.vocab c)).length
      = 3 + enc.vocab.length := by
    simp [predictInput, oneHot_length]
    omega
  refine ⟨hrow, hlen, ?_⟩
  intro xr hxr
  cases ls with
  | nil => simp [preprocess_data] at hpre
  | cons r0 rest =>
      simp only [preprocess_data, Except.ok.injEq, Prod.mk.injEq] at hpre
      obtain ⟨hdf, henc⟩ := hpre
      subst hdf
      rw [dropPriceColumn, List.map_map, List.mem_map] at hxr
      obtain ⟨r, -, rfl⟩ := hxr
      have : ((Function.comp (fun row => (row.filter (fun p => p.1 != "price")).map Prod.snd)
          (dfRow (⟨fitVocab ((r0 :: rest).map (·.neighbourhood))⟩ : Encoder).vocab)) r)
          = xRowValues (⟨fitVocab ((r0 :: rest).map (·.neighbourhood))⟩ : Encoder).vocab r := rfl
      rw [this, xRowValues_length, hlen, ← henc]

/-- Witness for C1, on a one-listing batch with a one-name vocabulary. -/
theorem c1_feature_row_width_and_order_witness :
    predictInput 5 2 3 [1] = xRowValues ["Allston"] ⟨7, 5, 2, 3, "Allston"⟩
    ∧ (predictInput 5 2 3 [1]).length = 3 + (["Allston"] : List String).length
    ∧ ∀ xr ∈ dropPriceColumn [dfRow ["Allston"] ⟨100, 2, 1, 4, "Allston"⟩],
        xr.length = (predictInput 5 2 3 [1]).length :=
  c1_feature_row_width_and_order [⟨100, 2, 1, 4, "Allston"⟩] _ ⟨["Allston"]⟩ rfl
    5 2 3 7 "Allston" [1] (by decide)

/-- Counterexample to claim C5: in a Ready state, a predict body with
`bathrooms` absent (the other three fields valid) does NOT get the
missing-parameters 400 — it gets the invalid-numeric-values 400,
because `pd.to_numeric(None, errors=coerce)` yields `NaN`, not `None`. -/
theorem c5_absent_numeric_field_counterexample :
    (predict ⟨some (.fitted [1, 1, 1, 1] 0), some ⟨["South Boston"]⟩, []⟩
        ⟨some (.num 2), none, some (.num 4), some "South Boston"⟩).1
      = .badRequest invalidNumericMsg
    ∧ (predict ⟨some (.fitted [1, 1, 1, 1] 0), some ⟨["South Boston"]⟩, []⟩
        ⟨some (.num 2), none, some (.num 4), some "South Boston"⟩).1
      ≠ .badRequest missingParamsMsg := by
  refine ⟨by decide, by decide⟩

/-- Claim C5 as amended: in the Ready state the missing-parameters 400
is returned exactly when `neighbourhood_cleansed` is absent; when a
numeric field is absent (coerced to `NaN`) and a valid neighbourhood is
present, the response is instead the invalid-numeric-values 400. -/
theorem c5_missing_params_amended (s : ServerState) (m : MState) (e : Encoder)
    (req : PredictRequest) (hm : s.model = some m) (he : s.encoder = some e) :
    (req.neighbourhood_cleansed = none →
      (predict s req).1 = .badRequest missingParamsMsg)
    ∧ (∀ nb, req.neighbourhood_cleansed = some nb →
        (predict s req).1 ≠ .badRequest missingParamsMsg)
    ∧ (∀ nb, req.neighbourhood_cleansed = some nb → nb ∈ valid_neighborhoods →
        (to_numeric req.bedrooms = .nan ∨ to_numeric req.bathrooms = .nan
          ∨ to_numeric req.accommodates = .nan) →
        (predict s req).1 = .badRequest invalidNumericMsg) := by
  obtain ⟨m0, e0, db⟩ := s
  simp only at hm he
  subst hm
  subst he
  obtain ⟨rb, rba, rac, rnb⟩ := req
  refine ⟨?_, ?_, ?_⟩
  · intro h
    simp only at h
    subst h
    rfl
  · intro nb h
    simp only at h
    subst h
    unfold predict
    simp only
    split
    · intro hcontra
      have h2 : invalidNeighborhoodMsg = missingParamsMsg := by simpa using hcontra
      exact absurd h2 (by decide)
    · split
      · intro hcontra
        have h2 : invalidNumericMsg = missingParamsMsg := by simpa using hcontra
        exact absurd h2 (by decide)
      · split
        · intro hcontra
          exact PredictResponse.noConfusion hcontra
        · split
          · intro hcontra
            exact PredictResponse.noConfusion hcontra
          · intro hcontra
            exact PredictResponse.noConfusion hcontra
  · intro nb h hmem hnan
    simp only at h
    subst h
    unfold predict
    simp only
    split
    · rename_i hnot
      exact absurd hmem hnot
    · rfl

/-- Witness for the amended C5: absent `bathrooms` with a valid
neighbourhood yields the invalid-numeric-values 400. -/
theorem c5_missing_params_amended_witness :
    (predict ⟨some (.fitted [2, 2, 2, 2] 1), some ⟨["Fenway"]⟩, []⟩
        ⟨some (.num 3), none, some (.num 5), some "Fenway"⟩).1
      = .badRequest invalidNumericMsg :=
  (c5_missing_params_amended _ (.fitted [2, 2, 2, 2] 1) ⟨["Fenway"]⟩
      ⟨some (.num 3), none, some (.num 5), some "Fenway"⟩ rfl rfl).2.2
    "Fenway" rfl (by decide) (Or.inr (Or.inl rfl))

/-- Claim C8: a successful reload computes its summary over a nonempty
cleaned batch, and its statistics satisfy
`min_price ≤ average_price ≤ max_price`. -/
theorem c8_summary_mean_between_min_max (s : ServerState)
    (fetch : Except Unit (List RawRow))
    (fitO : List (List ℚ) → List ℚ → Except Unit (List ℚ × ℚ))
    (summ : Summary)
    (h : (reload_data s fetch fitO).2 = .ok summ) :
    summ.min_price ≤ summ.average_price
    ∧ summ.average_price ≤ summ.max_price := by
  obtain ⟨ls, hne, rfl⟩ : ∃ ls, ls ≠ [] ∧ summ = mkSummary ls := by
    cases hf : fetch with
    | error u => simp [reload_data, hf] at h
    | ok rows =>
        cases hc : astypePrices (dropna rows) with
        | error msg => simp [reload_data, hf, hc] at h
        | ok listings =>
            cases hp : preprocess_data listings with
            | error msg => simp [reload_data, hf, hc, hp] at h
            | ok pair =>
                obtain ⟨df, enc⟩ := pair
                cases hfit : fitO (dropPriceColumn df) (priceColumn df) with
                | error u => simp [reload_data, hf, hc, hp, hfit] at h
                | ok wb =>
                    refine ⟨listings, ?_, ?_⟩
                    · intro hnil
                      subst hnil
                      simp [preprocess_data] at hp
                    · simp [reload_data, hf, hc, hp, hfit] at h
                      exact h.symm
  have hmap : (ls.map (·.price)) ≠ [] := by
    intro hnil
    exact hne (List.map_eq_nil_iff.mp hnil)
  constructor
  · simpa [mkSummary] using qmin_le_qmean (ls.map (·.price)) hmap
  · simpa [mkSummary] using qmean_le_qmax (ls.map (·.price)) hmap

/-- Witness for C8, on a concrete successful one-row reload. -/
theorem c8_summary_mean_between_min_max_witness :
    (mkSummary [⟨100, 2, 1, 4, "Allston"⟩]).min_price
      ≤ (mkSummary [⟨100, 2, 1, 4, "Allston"⟩]).average_price
    ∧ (mkSummary [⟨100, 2, 1, 4, "Allston"⟩]).average_price
      ≤ (mkSummary [⟨100, 2, 1, 4, "Allston"⟩]).max_price :=
  c8_summary_mean_between_min_max ⟨none, none, []⟩
    (.ok [⟨some "$100", some 2, some 1, some 4, some "Allston"⟩])
    (fun _ _ => .ok ([0, 0, 0, 0], 0))
    (mkSummary [⟨100, 2, 1, 4, "Allston"⟩]) rfl

/-- Claim C6: in the Ready state, a predict body with `bathrooms`
omitted and the other three fields valid yields the 400
invalid-numeric-values error (not the missing-parameters error),
matching `test_missing_fields`. -/
theorem c6_missing_bathrooms_invalid_numeric (s : ServerState)
    (m : MState) (e : Encoder)
    (hm : s.model = some m) (he : s.encoder = some e) :
    (predict s ⟨some (.num 2), none, some (.num 4), some "South Boston"⟩).1
      = .badRequest invalidNumericMsg := by
  obtain ⟨m0, e0, db⟩ := s
  simp only at hm he
  subst hm
  subst he
  rfl

/-- Witness for C6, on a concrete Ready state. -/
theorem c6_missing_bathrooms_invalid_numeric_witness :
    (predict ⟨some (.fitted [1, 1, 1, 1] 0), some ⟨["South Boston"]⟩, []⟩
      ⟨some (.num 2), none, some (.num 4), some "South Boston"⟩).1
      = .badRequest invalidNumericMsg :=
  c6_missing_bathrooms_invalid_numeric _ (.fitted [1, 1, 1, 1] 0) ⟨["South Boston"]⟩ rfl rfl

end AirbnbApp
